import Mathlib

/-!
Verification of the hotkey-type dictation session controller.

The definitions below are a shallow embedding of the `dictation-toggle`
listener in `src/App.tsx` (the panel window's session orchestration logic):
the debounce gate, the start/stop-recording branches, credential resolution
with a single settings reload, provider dispatch, the empty-transcript check,
paste-result handling, the generic catch handler, and the `setTimeout`-based
auto-return-to-IDLE timers.  External collaborators (the Tauri commands
`start_recording`, `stop_recording`, `get_settings`, `openai_transcribe`,
`google_transcribe`, `paste_text`) are modelled by an environment supplying
the result of each awaited call, and every external invocation performed by a
handler run is recorded in an output call trace.
-/

namespace HotkeyType

/-- The `Phase` union type from App.tsx. -/
inductive Phase
  | IDLE
  | RECORDING
  | TRANSCRIBING
  | PASTING
  | DONE
  | ERROR
deriving DecidableEq, Repr

/-- The settings payload returned by the `get_settings` command
(fields relevant to the toggle handler). -/
structure Settings where
  provider : String
  openai_api_key : String
  google_api_key : String
  google_language : String
deriving DecidableEq, Repr

/-- The result object of the `stop_recording` command. -/
structure Stopped where
  path : String
  sample_rate : Nat
  duration_ms : Nat
deriving DecidableEq, Repr

/-- One external (Tauri `invoke`) call made by the toggle handler, with the
arguments the handler passes. -/
inductive Call
  | start
  | stop
  | getSettings
  | googleTranscribe (audioPath apiKey language model : String) (punct : Bool)
  | openaiTranscribe (audioPath apiKey model : String)
  | paste (text : String)
deriving DecidableEq, Repr

/-- The environment of one toggle-handler run: the outcome of each external
call the run may await.  `.error e` models a rejected promise whose message
is `e`. -/
structure Env where
  startResult : Except String String
  stopResult : Except String Stopped
  reloadResult : Except String Settings
  transcribeResult : Except String String
  pasteResult : Except String Bool

/-- The mutable state visible to the toggle listener: the React phase/message
state, the cached settings state, the refs (`lastHandledRef`, `recordingRef`,
`lastPathRef`), and the multiset of pending `setTimeout` recovery timers
(each recorded by its delay in ms; none is ever cancelled in the source). -/
structure AppState where
  phase : Phase
  message : String
  provider : String
  openaiApiKey : String
  googleApiKey : String
  googleLanguage : String
  lastHandled : Int
  recording : Bool
  lastPath : Option String
  timers : List Nat
deriving DecidableEq, Repr

/-- JS `String.prototype.trim` on a character list: strip leading and
trailing whitespace. -/
def trimChars (l : List Char) : List Char :=
  ((l.dropWhile Char.isWhitespace).reverse.dropWhile Char.isWhitespace).reverse

/-- JS `String.prototype.trim`. -/
def jsTrim (s : String) : String :=
  ⟨trimChars s.data⟩

/-- The initial component state (the `useState`/`useRef` initialisers). -/
def initState : AppState :=
  { phase := .IDLE
    message := ""
    provider := "openai"
    openaiApiKey := ""
    googleApiKey := ""
    googleLanguage := "en-US"
    lastHandled := 0
    recording := false
    lastPath := none
    timers := [] }

/-- The catch handler of the toggle listener: clears `recordingRef`, sets
phase ERROR with the wrapped message, and arms a 3000ms auto-return timer. -/
def catchErr (e : String) (s : AppState) : AppState :=
  { s with recording := false
           phase := .ERROR
           message := "Error: " ++ e
           timers := s.timers ++ [3000] }

/-- Which branch of the handler an accepted toggle takes. -/
inductive Branch
  | start
  | stop
deriving DecidableEq, Repr

/-- The synchronous part of the toggle listener, up to its first `await`:
the 150ms debounce check against `lastHandledRef`, the update of
`lastHandledRef`, and the phase/message/`recordingRef` writes of whichever
branch the `recordingRef` test selects.  `none` means the signal was dropped
by the debounce gate.  The returned state is exactly the state another
listener invocation would observe while this one is suspended at its first
`await`. -/
def toggleSyncStep (now : Int) (s : AppState) : Option (AppState × Branch) :=
  if now - s.lastHandled < 150 then none
  else
    let s := { s with lastHandled := now }
    if !s.recording then
      some ({ s with recording := true, phase := .RECORDING, message := "Recording..." },
            .start)
    else
      some ({ s with recording := false, phase := .TRANSCRIBING, message := "Transcribing..." },
            .stop)

/-- The stop branch from the point where provider and credentials have been
resolved (`providerToUse`, `openaiKeyToUse`, `googleKeyToUse`,
`googleLanguageToUse` are the local variables of App.tsx after the optional
refresh): the missing-key throws, the google language default, the
transcription call, the empty-transcript check, and paste handling. -/
def afterResolve (env : Env) (stopped : Stopped)
    (providerToUse openaiKeyToUse googleKeyToUse googleLanguageToUse : String)
    (s : AppState) : AppState × List Call :=
  if providerToUse == "openai" && openaiKeyToUse == "" then
    (catchErr "Please set your OpenAI API key in Settings" s, [])
  else if providerToUse == "google" && googleKeyToUse == "" then
    (catchErr "Please set your Google API key in Settings" s, [])
  else
    let googleLanguageToUse :=
      if providerToUse == "google" && googleLanguageToUse == "" then "en-US"
      else googleLanguageToUse
    let tc : Call :=
      if providerToUse == "google" then
        .googleTranscribe stopped.path googleKeyToUse googleLanguageToUse "default" true
      else
        .openaiTranscribe stopped.path openaiKeyToUse "whisper-1"
    match env.transcribeResult with
    | .error e => (catchErr e s, [tc])
    | .ok text =>
      if text == "" || (jsTrim text).length == 0 then
        ({ s with phase := .ERROR, message := "No text was transcribed from the audio" }, [tc])
      else
        let s := { s with phase := .PASTING, message := "Pasting..." }
        match env.pasteResult with
        | .error e => (catchErr e s, [tc, .paste text])
        | .ok pasted =>
          if pasted then
            ({ s with phase := .DONE
                      message := "Pasted: \"" ++ text ++ "\""
                      timers := s.timers ++ [2000] }, [tc, .paste text])
          else
            ({ s with phase := .DONE
                      message := "Copied to clipboard (press ⌘V): \"" ++ text ++ "\""
                      timers := s.timers ++ [2000] }, [tc, .paste text])

/-- The stop branch from the point where `stop_recording` has succeeded:
derives the `...ToUse` locals from the cached settings state, performs the
single `get_settings` refresh when the selected provider's trimmed key is
empty (a rejected refresh propagates to the catch handler), and continues
with `afterResolve`. -/
def stopPipeline (env : Env) (stopped : Stopped) (s : AppState) : AppState × List Call :=
  let providerToUse := s.provider
  let openaiKeyToUse := jsTrim s.openaiApiKey
  let googleKeyToUse := jsTrim s.googleApiKey
  let googleLanguageToUse := jsTrim s.googleLanguage
  let needsRefresh := providerToUse == "" ||
    (providerToUse == "openai" && openaiKeyToUse == "") ||
    (providerToUse == "google" && googleKeyToUse == "")
  if needsRefresh then
    match env.reloadResult with
    | .error e => (catchErr e s, [.getSettings])
    | .ok latest =>
      let providerToUse := if latest.provider == "google" then "google" else "openai"
      let openaiKeyToUse := jsTrim latest.openai_api_key
      let googleKeyToUse := jsTrim latest.google_api_key
      let googleLanguageToUse := jsTrim latest.google_language
      let s := { s with provider := providerToUse
                        openaiApiKey := openaiKeyToUse
                        googleApiKey := googleKeyToUse
                        googleLanguage :=
                          if googleLanguageToUse == "" then "en-US" else googleLanguageToUse }
      let r := afterResolve env stopped providerToUse openaiKeyToUse googleKeyToUse
        googleLanguageToUse s
      (r.1, .getSettings :: r.2)
  else
    afterResolve env stopped providerToUse openaiKeyToUse googleKeyToUse googleLanguageToUse s

/-- The stop branch: the `stop_recording` call followed by `stopPipeline`;
a rejected `stop_recording` goes to the catch handler. -/
def runStop (env : Env) (s : AppState) : AppState × List Call :=
  match env.stopResult with
  | .error e => (catchErr e s, [.stop])
  | .ok stopped =>
    let r := stopPipeline env stopped s
    (r.1, .stop :: r.2)

/-- One complete run of the toggle listener for a signal arriving at `now`
against state `s`, with external-call outcomes supplied by `env`.  Returns
the state after the run together with the trace of external calls it made. -/
def handleToggle (now : Int) (env : Env) (s : AppState) : AppState × List Call :=
  match toggleSyncStep now s with
  | none => (s, [])
  | some (s1, .start) =>
    match env.startResult with
    | .ok path => ({ s1 with lastPath := some path }, [.start])
    | .error e => (catchErr e s1, [.start])
  | some (s1, .stop) => runStop env s1

/-- Firing of the oldest pending recovery timer: the `setTimeout` callbacks
in App.tsx all run `setPhase("IDLE"); setMessage("")`.  With no pending
timer this is a no-op. -/
def fireRecovery (s : AppState) : AppState :=
  match s.timers with
  | [] => s
  | _ :: rest => { s with phase := .IDLE, message := "", timers := rest }

/-- An environment in which every external call succeeds, used to build
concrete traces. -/
def okEnv : Env :=
  { startResult := .ok "/tmp/rec.wav"
    stopResult := .ok ⟨"/tmp/rec.wav", 16000, 5000⟩
    reloadResult := .ok ⟨"openai", "", "", ""⟩
    transcribeResult := .ok "hello world"
    pasteResult := .ok true }

/-- A state with an OpenAI key configured, for concrete traces. -/
def keyedState : AppState :=
  { initState with openaiApiKey := "sk-test" }

/-! ### C1: toggles accepted mid-flight -/

/-- The state after a first accepted toggle started a recording. -/
def sRec : AppState := (handleToggle 1000 okEnv keyedState).1

/-- The state observed by other listener invocations while a second accepted
toggle (at t = 6000) is suspended at its `stop_recording` await: the
synchronous prefix of the stop branch has run. -/
def sMid : AppState := ((toggleSyncStep 6000 sRec).getD (initState, Branch.start)).1

/-! ### C10: fatal errors clear the recording flag -/

/-- An environment whose `start_recording` call fails. -/
def startFailEnv : Env := { okEnv with startResult := .error "mic device unavailable" }

/-! ### C2: pending recovery timers are never cancelled -/

/-- The state after a full successful cycle (toggle at t = 1000 starts, toggle
at t = 6000 stops, transcribes and pastes): phase DONE, one pending 2000ms
recovery timer. -/
def sDone : AppState := (handleToggle 6000 okEnv sRec).1

/-- The state after a further accepted toggle at t = 6500 starts a new cycle
while the DONE recovery timer of the previous cycle is still pending. -/
def sSecondCycle : AppState := (handleToggle 6500 okEnv sDone).1

/-! ### C3: which outcomes arm a recovery timer -/

/-- An environment whose transcription succeeds with a whitespace-only
transcript. -/
def emptyTextEnv : Env := { okEnv with transcribeResult := .ok "   " }

/-! ### C8: a failing reload is not converted to a missing-credential error -/

/-- An environment whose forced settings reload rejects. -/
def reloadFailEnv : Env := { okEnv with reloadResult := .error "failed to read settings store" }

/-- A recording-in-progress state with no credential configured. -/
def sNoKeyRecording : AppState := { initState with recording := true }

/-- Whether a call is one of the two transcription invocations. -/
def isTranscribeCall : Call → Bool
  | .googleTranscribe _ _ _ _ _ => true
  | .openaiTranscribe _ _ _ => true
  | _ => false

/-- A recording-in-progress state with provider google, a configured key and
a whitespace-only language setting. -/
def googleState : AppState :=
  { initState with provider := "google"
                   googleApiKey := "g-key"
                   googleLanguage := " "
                   recording := true }

/-- An environment whose paste reports failure (`{pasted: false}`). -/
def pasteFalseEnv : Env := { okEnv with pasteResult := .ok false }

/-- An environment whose settings reload resolves provider google with a
configured key and a whitespace-only language code. -/
def googleReloadEnv : Env :=
  { okEnv with reloadResult := .ok ⟨"google", "", "g-key2", " "⟩ }

example : (handleToggle 1000 okEnv keyedState).1.phase = Phase.RECORDING := by decide

example :
    (handleToggle 6000 okEnv (handleToggle 1000 okEnv keyedState).1).1.phase = Phase.DONE := by
  decide

/-! ### Structural lemmas about the handler -/

lemma toggleSyncStep_dropped (now : Int) (s : AppState)
    (h : now - s.lastHandled < 150) :
    toggleSyncStep now s = none := by
  unfold toggleSyncStep
  rw [if_pos h]

lemma toggleSyncStep_start (now : Int) (s : AppState)
    (hacc : 150 ≤ now - s.lastHandled) (hrec : s.recording = false) :
    toggleSyncStep now s =
      some ({ s with lastHandled := now
                     recording := true
                     phase := .RECORDING
                     message := "Recording..." }, .start) := by
  unfold toggleSyncStep
  rw [if_neg (by omega)]
  simp [hrec]

lemma toggleSyncStep_stop (now : Int) (s : AppState)
    (hacc : 150 ≤ now - s.lastHandled) (hrec : s.recording = true) :
    toggleSyncStep now s =
      some ({ s with lastHandled := now
                     recording := false
                     phase := .TRANSCRIBING
                     message := "Transcribing..." }, .stop) := by
  unfold toggleSyncStep
  rw [if_neg (by omega)]
  simp [hrec]

lemma handleToggle_dropped (now : Int) (env : Env) (s : AppState)
    (h : now - s.lastHandled < 150) :
    handleToggle now env s = (s, []) := by
  unfold handleToggle
  rw [toggleSyncStep_dropped now s h]

lemma handleToggle_start_run (now : Int) (env : Env) (s : AppState)
    (hacc : 150 ≤ now - s.lastHandled) (hrec : s.recording = false) :
    handleToggle now env s =
      match env.startResult with
      | .ok path =>
        ({ s with lastHandled := now
                  recording := true
                  phase := .RECORDING
                  message := "Recording..."
                  lastPath := some path }, [Call.start])
      | .error e =>
        (catchErr e { s with lastHandled := now
                             recording := true
                             phase := .RECORDING
                             message := "Recording..." }, [Call.start]) := by
  unfold handleToggle
  rw [toggleSyncStep_start now s hacc hrec]

lemma handleToggle_stop_run (now : Int) (env : Env) (s : AppState)
    (hacc : 150 ≤ now - s.lastHandled) (hrec : s.recording = true) :
    handleToggle now env s =
      runStop env { s with lastHandled := now
                           recording := false
                           phase := .TRANSCRIBING
                           message := "Transcribing..." } := by
  unfold handleToggle
  rw [toggleSyncStep_stop now s hacc hrec]

lemma afterResolve_timers (env : Env) (stopped : Stopped)
    (p ok gk gl : String) (s : AppState) :
    ∃ t, (afterResolve env stopped p ok gk gl s).1.timers = s.timers ++ t := by
  unfold afterResolve catchErr
  repeat' split
  all_goals first
    | exact ⟨[3000], rfl⟩
    | exact ⟨[2000], rfl⟩
    | exact ⟨[], by simp⟩

lemma stopPipeline_timers (env : Env) (stopped : Stopped) (s : AppState) :
    ∃ t, (stopPipeline env stopped s).1.timers = s.timers ++ t := by
  simp only [stopPipeline]
  split
  · split
    · exact ⟨[3000], rfl⟩
    · exact afterResolve_timers ..
  · exact afterResolve_timers ..

lemma runStop_timers (env : Env) (s : AppState) :
    ∃ t, (runStop env s).1.timers = s.timers ++ t := by
  unfold runStop
  split
  · exact ⟨[3000], rfl⟩
  · exact stopPipeline_timers ..

lemma handleToggle_timers (now : Int) (env : Env) (s : AppState) :
    ∃ t, (handleToggle now env s).1.timers = s.timers ++ t := by
  rcases lt_or_le (now - s.lastHandled) 150 with h | h
  · rw [handleToggle_dropped now env s h]
    exact ⟨[], by simp⟩
  · cases hrec : s.recording
    · rw [handleToggle_start_run now env s h hrec]
      cases hst : env.startResult
      · exact ⟨[3000], rfl⟩
      · exact ⟨[], by simp⟩
    · rw [handleToggle_stop_run now env s h hrec]
      exact runStop_timers ..

lemma afterResolve_recording (env : Env) (stopped : Stopped)
    (p ok gk gl : String) (s : AppState) (h : s.recording = false) :
    (afterResolve env stopped p ok gk gl s).1.recording = false := by
  unfold afterResolve catchErr
  repeat' split
  all_goals simp [h]

lemma stopPipeline_recording (env : Env) (stopped : Stopped) (s : AppState)
    (h : s.recording = false) :
    (stopPipeline env stopped s).1.recording = false := by
  simp only [stopPipeline]
  split
  · split
    · simp [catchErr]
    · exact afterResolve_recording _ _ _ _ _ _ _ (by simp [h])
  · exact afterResolve_recording _ _ _ _ _ _ _ h

lemma runStop_recording (env : Env) (s : AppState) (h : s.recording = false) :
    (runStop env s).1.recording = false := by
  unfold runStop
  split
  · simp [catchErr]
  · exact stopPipeline_recording _ _ _ h

lemma afterResolve_phase_timers (env : Env) (stopped : Stopped)
    (p ok gk gl : String) (s : AppState) :
    ((afterResolve env stopped p ok gk gl s).1.phase = .DONE →
      (afterResolve env stopped p ok gk gl s).1.timers = s.timers ++ [2000]) ∧
    ((afterResolve env stopped p ok gk gl s).1.phase = .ERROR →
      ((afterResolve env stopped p ok gk gl s).1.message =
          "No text was transcribed from the audio" ∧
        (afterResolve env stopped p ok gk gl s).1.timers = s.timers) ∨
      (afterResolve env stopped p ok gk gl s).1.timers = s.timers ++ [3000]) := by
  unfold afterResolve catchErr
  repeat' split
  all_goals simp

lemma stopPipeline_phase_timers (env : Env) (stopped : Stopped) (s : AppState) :
    ((stopPipeline env stopped s).1.phase = .DONE →
      (stopPipeline env stopped s).1.timers = s.timers ++ [2000]) ∧
    ((stopPipeline env stopped s).1.phase = .ERROR →
      ((stopPipeline env stopped s).1.message = "No text was transcribed from the audio" ∧
        (stopPipeline env stopped s).1.timers = s.timers) ∨
      (stopPipeline env stopped s).1.timers = s.timers ++ [3000]) := by
  simp only [stopPipeline]
  split
  · split
    · constructor
      · intro h
        simp [catchErr] at h
      · intro _
        right
        rfl
    · exact afterResolve_phase_timers ..
  · exact afterResolve_phase_timers ..

lemma runStop_phase_timers (env : Env) (s : AppState) :
    ((runStop env s).1.phase = .DONE → (runStop env s).1.timers = s.timers ++ [2000]) ∧
    ((runStop env s).1.phase = .ERROR →
      ((runStop env s).1.message = "No text was transcribed from the audio" ∧
        (runStop env s).1.timers = s.timers) ∨
      (runStop env s).1.timers = s.timers ++ [3000]) := by
  unfold runStop
  split
  · constructor
    · intro h
      simp [catchErr] at h
    · intro _
      right
      rfl
  · exact stopPipeline_phase_timers ..

lemma afterResolve_lastHandled (env : Env) (stopped : Stopped)
    (p ok gk gl : String) (s : AppState) :
    (afterResolve env stopped p ok gk gl s).1.lastHandled = s.lastHandled := by
  unfold afterResolve catchErr
  repeat' split
  all_goals rfl

lemma stopPipeline_lastHandled (env : Env) (stopped : Stopped) (s : AppState) :
    (stopPipeline env stopped s).1.lastHandled = s.lastHandled := by
  simp only [stopPipeline]
  split
  · split
    · rfl
    · exact afterResolve_lastHandled ..
  · exact afterResolve_lastHandled ..

lemma runStop_lastHandled (env : Env) (s : AppState) :
    (runStop env s).1.lastHandled = s.lastHandled := by
  unfold runStop
  split
  · rfl
  · exact stopPipeline_lastHandled ..

lemma runStop_calls_ne (env : Env) (s : AppState) : (runStop env s).2 ≠ [] := by
  unfold runStop
  split
  · simp
  · simp

/-! ### C7: the debounce gate -/

/-- C7: with `t1` the stored last-accepted toggle timestamp, a toggle signal at
`t2` with `t2 - t1 < 150` is dropped: the handler run is a complete no-op (state
unchanged, in particular the stored timestamp, and no external call is made).  A
signal at `t1 + 150` or later is accepted, and acceptance updates the stored
timestamp to `t2` (and the handler acts, making at least one external call). -/
theorem debounce_gate (t1 t2 : Int) (env : Env) (s : AppState)
    (h1 : s.lastHandled = t1) :
    (t2 - t1 < 150 → handleToggle t2 env s = (s, [])) ∧
    (150 ≤ t2 - t1 →
      (handleToggle t2 env s).1.lastHandled = t2 ∧ (handleToggle t2 env s).2 ≠ []) := by
  constructor
  · intro h
    exact handleToggle_dropped t2 env s (by omega)
  · intro h
    cases hrec : s.recording
    · rw [handleToggle_start_run t2 env s (by omega) hrec]
      cases hst : env.startResult <;> simp [catchErr]
    · rw [handleToggle_stop_run t2 env s (by omega) hrec]
      refine ⟨?_, runStop_calls_ne env _⟩
      rw [runStop_lastHandled]

/-- C7 witness: at the concrete stored timestamp 1000, a toggle at 1100 is
dropped with the state unchanged, and a toggle at 1200 is accepted and updates
the stored timestamp. -/
theorem debounce_gate_witness :
    handleToggle 1100 okEnv { initState with lastHandled := 1000 } =
      ({ initState with lastHandled := 1000 }, []) ∧
    (handleToggle 1200 okEnv { initState with lastHandled := 1000 }).1.lastHandled = 1200 := by
  constructor
  · exact (debounce_gate 1000 1100 okEnv { initState with lastHandled := 1000 } rfl).1
      (by decide)
  · exact ((debounce_gate 1000 1200 okEnv { initState with lastHandled := 1000 } rfl).2
      (by decide)).1

/-- C1 counterexample: in the concrete mid-flight state (phase TRANSCRIBING,
reached while the stop branch awaits `stop_recording`), a toggle at t = 6200
accepted by the debounce gate is NOT a no-op: the handler takes the
start-recording branch, changes phase to RECORDING and invokes
`start_recording`. -/
theorem midflight_toggle_cex :
    sMid.phase = Phase.TRANSCRIBING ∧ sMid.recording = false ∧
    (handleToggle 6200 okEnv sMid).1.phase = Phase.RECORDING ∧
    (handleToggle 6200 okEnv sMid).2 = [Call.start] := by decide

/-- C1 amended: a toggle accepted by the debounce gate while phase is
TRANSCRIBING or PASTING (mid-flight states, in which the recording flag is
false because the stop branch cleared it) takes the start-recording branch:
it invokes `start_recording` and mutates phase — to RECORDING, or to ERROR if
the start fails.  It is not a no-op with respect to the state machine. -/
theorem midflight_toggle_starts_recording (now : Int) (env : Env) (s : AppState)
    (hphase : s.phase = .TRANSCRIBING ∨ s.phase = .PASTING)
    (hrec : s.recording = false)
    (hacc : 150 ≤ now - s.lastHandled) :
    Call.start ∈ (handleToggle now env s).2 ∧
    (handleToggle now env s).1.phase ≠ s.phase ∧
    ((handleToggle now env s).1.phase = .RECORDING ∨
      (handleToggle now env s).1.phase = .ERROR) := by
  rw [handleToggle_start_run now env s hacc hrec]
  cases hst : env.startResult <;> rcases hphase with h | h <;> simp [catchErr, h]

/-- C1 witness: the amended theorem applied to the concrete mid-flight state. -/
theorem midflight_toggle_starts_recording_witness :
    Call.start ∈ (handleToggle 6200 okEnv sMid).2 ∧
    (handleToggle 6200 okEnv sMid).1.phase ≠ sMid.phase ∧
    ((handleToggle 6200 okEnv sMid).1.phase = Phase.RECORDING ∨
      (handleToggle 6200 okEnv sMid).1.phase = Phase.ERROR) :=
  midflight_toggle_starts_recording 6200 okEnv sMid (by decide) (by decide) (by decide)

/-- C10: after any accepted toggle whose outcome is phase ERROR, the recording
flag is false, so the next accepted toggle takes the start-recording branch
(it invokes `start_recording` and never `stop_recording`). -/
theorem error_resets_recording (now now2 : Int) (env env2 : Env) (s : AppState)
    (hacc : 150 ≤ now - s.lastHandled)
    (herr : (handleToggle now env s).1.phase = .ERROR)
    (hacc2 : 150 ≤ now2 - (handleToggle now env s).1.lastHandled) :
    (handleToggle now env s).1.recording = false ∧
    Call.start ∈ (handleToggle now2 env2 (handleToggle now env s).1).2 ∧
    Call.stop ∉ (handleToggle now2 env2 (handleToggle now env s).1).2 := by
  have hrec0 : (handleToggle now env s).1.recording = false := by
    cases hrec : s.recording
    · rw [handleToggle_start_run now env s hacc hrec] at herr ⊢
      cases hst : env.startResult <;> simp [catchErr, hst] at herr ⊢
    · rw [handleToggle_stop_run now env s hacc hrec]
      exact runStop_recording env _ rfl
  refine ⟨hrec0, ?_, ?_⟩
  · rw [handleToggle_start_run now2 env2 _ hacc2 hrec0]
    cases hst : env2.startResult <;> simp
  · rw [handleToggle_start_run now2 env2 _ hacc2 hrec0]
    cases hst : env2.startResult <;> simp

/-- C10 witness: a failed `start_recording` at t = 1000 yields ERROR with the
recording flag cleared, and the next accepted toggle at t = 5000 takes the
start branch. -/
theorem error_resets_recording_witness :
    (handleToggle 1000 startFailEnv initState).1.recording = false ∧
    Call.start ∈ (handleToggle 5000 okEnv (handleToggle 1000 startFailEnv initState).1).2 ∧
    Call.stop ∉ (handleToggle 5000 okEnv (handleToggle 1000 startFailEnv initState).1).2 :=
  error_resets_recording 1000 5000 startFailEnv okEnv initState (by decide) (by decide)
    (by decide)

lemma fireRecovery_cons (s : AppState) (d : Nat) (rest : List Nat)
    (h : s.timers = d :: rest) :
    fireRecovery s = { s with phase := .IDLE, message := "", timers := rest } := by
  unfold fireRecovery
  rw [h]

/-- C2 counterexample: the toggle at t = 6500 starts a new cycle (phase
RECORDING) WITHOUT cancelling the 2000ms recovery timer armed by the previous
cycle ([2000] is still pending), the stale timer then fires and resets phase
to IDLE mid-recording, and a further stop cycle leaves two pending timers at
once. -/
theorem stale_timer_cex :
    sDone.phase = Phase.DONE ∧ sDone.timers = [2000] ∧
    sSecondCycle.phase = Phase.RECORDING ∧ sSecondCycle.timers = [2000] ∧
    (fireRecovery sSecondCycle).phase = Phase.IDLE ∧
    (fireRecovery sSecondCycle).message = "" ∧
    (handleToggle 12000 okEnv sSecondCycle).1.timers = [2000, 2000] := by decide

/-- C2 amended: the handler never cancels a pending recovery timer — a
toggle-driven run only ever appends timers to the pending list.  Consequently
a timer pending before a new toggle is still pending afterwards (so more than
one timer can be pending at once), and firing the stale timer still resets
phase to IDLE and clears the message even though a new cycle has started. -/
theorem timers_never_cancelled (now : Int) (env : Env) (s : AppState) :
    (∃ t, (handleToggle now env s).1.timers = s.timers ++ t) ∧
    (s.timers ≠ [] →
      (handleToggle now env s).1.timers ≠ [] ∧
      (fireRecovery (handleToggle now env s).1).phase = .IDLE ∧
      (fireRecovery (handleToggle now env s).1).message = "") := by
  refine ⟨handleToggle_timers now env s, ?_⟩
  intro hne
  obtain ⟨t, ht⟩ := handleToggle_timers now env s
  rcases htm : s.timers with _ | ⟨d, rest⟩
  · exact absurd htm hne
  · have hcons : (handleToggle now env s).1.timers = d :: (rest ++ t) := by
      rw [ht, htm, List.cons_append]
    rw [fireRecovery_cons _ d (rest ++ t) hcons, hcons]
    exact ⟨by simp, rfl, rfl⟩

/-- C2 witness: applying the amended theorem to the concrete DONE state with
its pending 2000ms timer, the stale timer still fires to IDLE after the new
toggle. -/
theorem timers_never_cancelled_witness :
    (fireRecovery (handleToggle 6500 okEnv sDone).1).phase = Phase.IDLE :=
  ((timers_never_cancelled 6500 okEnv sDone).2 (by decide)).2.1

/-- C3 counterexample: the empty-transcript outcome is fatal (phase ERROR)
but arms NO recovery timer at all — after the whitespace-only transcription
at t = 6000 the pending-timer list is empty, so phase never auto-resets to
IDLE. -/
theorem empty_transcript_no_timer_cex :
    (handleToggle 6000 emptyTextEnv sRec).1.phase = Phase.ERROR ∧
    (handleToggle 6000 emptyTextEnv sRec).1.timers = [] := by decide

/-- C3 amended: every accepted toggle run that ends in DONE arms a 2000ms
recovery timer; every run that ends in ERROR either is the empty-transcript
outcome (message "No text was transcribed from the audio"), which arms NO
timer, or arms a 3000ms recovery timer; and firing a pending recovery timer
resets phase to IDLE and clears the message. -/
theorem recovery_timer_arming (now : Int) (env : Env) (s : AppState)
    (hacc : 150 ≤ now - s.lastHandled) :
    ((handleToggle now env s).1.phase = .DONE →
      (handleToggle now env s).1.timers = s.timers ++ [2000]) ∧
    ((handleToggle now env s).1.phase = .ERROR →
      ((handleToggle now env s).1.message = "No text was transcribed from the audio" ∧
        (handleToggle now env s).1.timers = s.timers) ∨
      (handleToggle now env s).1.timers = s.timers ++ [3000]) ∧
    (∀ s2 : AppState, s2.timers ≠ [] →
      (fireRecovery s2).phase = .IDLE ∧ (fireRecovery s2).message = "") := by
  refine ⟨?_, ?_, ?_⟩
  · cases hrec : s.recording
    · rw [handleToggle_start_run now env s hacc hrec]
      cases hst : env.startResult <;> simp [catchErr, hst]
    · rw [handleToggle_stop_run now env s hacc hrec]
      exact (runStop_phase_timers env _).1
  · cases hrec : s.recording
    · rw [handleToggle_start_run now env s hacc hrec]
      cases hst : env.startResult <;> simp [catchErr, hst]
    · rw [handleToggle_stop_run now env s hacc hrec]
      exact (runStop_phase_timers env _).2
  · intro s2 hne
    rcases htm : s2.timers with _ | ⟨d, rest⟩
    · exact absurd htm hne
    · rw [fireRecovery_cons s2 d rest htm]
      exact ⟨rfl, rfl⟩

/-- C3 witness: a failed `start_recording` ends in ERROR with a 3000ms timer
armed, and a successful cycle ends in DONE with a 2000ms timer armed. -/
theorem recovery_timer_arming_witness :
    (handleToggle 1000 startFailEnv initState).1.timers = initState.timers ++ [3000] ∧
    (handleToggle 6000 okEnv sRec).1.timers = sRec.timers ++ [2000] := by
  constructor
  · rcases (recovery_timer_arming 1000 startFailEnv initState (by decide)).2.1
      (by decide) with ⟨hmsg, _⟩ | ht
    · exact absurd hmsg (by decide)
    · exact ht
  · exact (recovery_timer_arming 6000 okEnv sRec (by decide)).1 (by decide)

lemma runStop_ok (env : Env) (s : AppState) (stopped : Stopped)
    (h : env.stopResult = .ok stopped) :
    runStop env s =
      ((stopPipeline env stopped s).1, .stop :: (stopPipeline env stopped s).2) := by
  unfold runStop
  rw [h]

lemma afterResolve_count_getSettings (env : Env) (stopped : Stopped)
    (p ok gk gl : String) (s : AppState) :
    ((afterResolve env stopped p ok gk gl s).2.count Call.getSettings) = 0 := by
  unfold afterResolve
  repeat' split
  all_goals simp [List.count_cons]

/-! ### C4: the single credential-miss reload -/

/-- C4: when the selected provider's cached credential is missing at the stop
step (empty provider, or empty trimmed key for the selected provider), exactly
one `get_settings` reload is performed in the whole run (never a second one),
and if the provider re-derived from the reloaded settings still has an empty
trimmed key the cycle fails with phase ERROR and the missing-key message
naming that provider. -/
theorem credential_retry_once (now : Int) (env : Env) (s : AppState)
    (stopped : Stopped) (latest : Settings)
    (hacc : 150 ≤ now - s.lastHandled)
    (hrec : s.recording = true)
    (hstop : env.stopResult = .ok stopped)
    (hreload : env.reloadResult = .ok latest)
    (hmiss : s.provider = "" ∨ (s.provider = "openai" ∧ jsTrim s.openaiApiKey = "")
      ∨ (s.provider = "google" ∧ jsTrim s.googleApiKey = "")) :
    (handleToggle now env s).2.count Call.getSettings = 1 ∧
    (latest.provider ≠ "google" → jsTrim latest.openai_api_key = "" →
      (handleToggle now env s).1.phase = .ERROR ∧
      (handleToggle now env s).1.message =
        "Error: Please set your OpenAI API key in Settings") ∧
    (latest.provider = "google" → jsTrim latest.google_api_key = "" →
      (handleToggle now env s).1.phase = .ERROR ∧
      (handleToggle now env s).1.message =
        "Error: Please set your Google API key in Settings") := by
  rw [handleToggle_stop_run now env s hacc hrec, runStop_ok env _ stopped hstop]
  have hb : (s.provider == "" || (s.provider == "openai" && jsTrim s.openaiApiKey == "") ||
      (s.provider == "google" && jsTrim s.googleApiKey == "")) = true := by
    rcases hmiss with h | h | h
    · simp [h]
    · simp [h.1, h.2]
    · simp [h.1, h.2]
  simp only [stopPipeline]
  rw [if_pos hb, hreload]
  refine ⟨?_, ?_, ?_⟩
  · simp [List.count_cons, afterResolve_count_getSettings]
  · intro hp hk
    have hpb : (latest.provider == "google") = false := by simp [hp]
    simp [afterResolve, catchErr, hpb, hk]
  · intro hp hk
    have hpb : (latest.provider == "google") = true := by simp [hp]
    simp [afterResolve, catchErr, hpb, hk]

/-- C4 witness: provider openai with an empty cached key and a reload that
still returns no key yields ERROR with the OpenAI missing-key message after
exactly one reload. -/
theorem credential_retry_once_witness :
    (handleToggle 1000 okEnv { initState with recording := true }).2.count
      Call.getSettings = 1 ∧
    (handleToggle 1000 okEnv { initState with recording := true }).1.phase = Phase.ERROR ∧
    (handleToggle 1000 okEnv { initState with recording := true }).1.message =
      "Error: Please set your OpenAI API key in Settings" := by
  have h := credential_retry_once 1000 okEnv { initState with recording := true }
    ⟨"/tmp/rec.wav", 16000, 5000⟩ ⟨"openai", "", "", ""⟩
    (by decide) (by decide) rfl rfl (by decide)
  exact ⟨h.1, h.2.1 (by decide) (by decide)⟩

/-- C8 counterexample: when the forced settings reload itself fails, the
user-facing ERROR message is the raw settings-load error wrapped by the catch
handler, NOT the missing-credential message naming the provider's key. -/
theorem reload_failure_cex :
    (handleToggle 1000 reloadFailEnv sNoKeyRecording).1.phase = Phase.ERROR ∧
    (handleToggle 1000 reloadFailEnv sNoKeyRecording).1.message =
      "Error: failed to read settings store" ∧
    (handleToggle 1000 reloadFailEnv sNoKeyRecording).1.message ≠
      "Error: Please set your OpenAI API key in Settings" := by decide

/-- C8 amended: if the single forced settings reload fails, the reload
exception propagates to the generic catch handler: the cycle ends with phase
ERROR and message `Error: <reload error>` — the raw settings-load error, not
a missing-credential message — and the run stops at the reload (its external
calls are exactly `stop_recording` then `get_settings`). -/
theorem reload_failure_propagates (now : Int) (env : Env) (s : AppState)
    (stopped : Stopped) (e : String)
    (hacc : 150 ≤ now - s.lastHandled)
    (hrec : s.recording = true)
    (hstop : env.stopResult = .ok stopped)
    (hmiss : s.provider = "" ∨ (s.provider = "openai" ∧ jsTrim s.openaiApiKey = "")
      ∨ (s.provider = "google" ∧ jsTrim s.googleApiKey = ""))
    (hreload : env.reloadResult = .error e) :
    (handleToggle now env s).1.phase = .ERROR ∧
    (handleToggle now env s).1.message = "Error: " ++ e ∧
    (handleToggle now env s).2 = [Call.stop, Call.getSettings] := by
  rw [handleToggle_stop_run now env s hacc hrec, runStop_ok env _ stopped hstop]
  have hb : (s.provider == "" || (s.provider == "openai" && jsTrim s.openaiApiKey == "") ||
      (s.provider == "google" && jsTrim s.googleApiKey == "")) = true := by
    rcases hmiss with h | h | h
    · simp [h]
    · simp [h.1, h.2]
    · simp [h.1, h.2]
  simp only [stopPipeline]
  rw [if_pos hb, hreload]
  exact ⟨rfl, rfl, rfl⟩

/-- C8 witness: the amended theorem at the concrete failing reload. -/
theorem reload_failure_propagates_witness :
    (handleToggle 1000 reloadFailEnv sNoKeyRecording).1.phase = Phase.ERROR ∧
    (handleToggle 1000 reloadFailEnv sNoKeyRecording).1.message =
      "Error: " ++ "failed to read settings store" ∧
    (handleToggle 1000 reloadFailEnv sNoKeyRecording).2 =
      [Call.stop, Call.getSettings] :=
  reload_failure_propagates 1000 reloadFailEnv sNoKeyRecording
    ⟨"/tmp/rec.wav", 16000, 5000⟩ "failed to read settings store"
    (by decide) (by decide) rfl (by decide) rfl

lemma afterResolve_google_lang (env : Env) (stopped : Stopped)
    (p ok gk gl : String) (s : AppState)
    (p' k' lang m' : String) (b' : Bool)
    (h : Call.googleTranscribe p' k' lang m' b' ∈ (afterResolve env stopped p ok gk gl s).2) :
    lang ≠ "" := by
  unfold afterResolve at h
  repeat' split at h
  all_goals simp_all

lemma stopPipeline_google_lang (env : Env) (stopped : Stopped) (s : AppState)
    (p' k' lang m' : String) (b' : Bool)
    (h : Call.googleTranscribe p' k' lang m' b' ∈ (stopPipeline env stopped s).2) :
    lang ≠ "" := by
  simp only [stopPipeline] at h
  split at h
  · split at h
    · simp at h
    · rcases List.mem_cons.mp h with h' | h'
      · simp at h'
      · exact afterResolve_google_lang _ _ _ _ _ _ _ _ _ _ _ _ h'
  · exact afterResolve_google_lang _ _ _ _ _ _ _ _ _ _ _ _ h

lemma runStop_google_lang (env : Env) (s : AppState)
    (p' k' lang m' : String) (b' : Bool)
    (h : Call.googleTranscribe p' k' lang m' b' ∈ (runStop env s).2) :
    lang ≠ "" := by
  unfold runStop at h
  split at h
  · simp at h
  · rcases List.mem_cons.mp h with h' | h'
    · simp at h'
    · exact stopPipeline_google_lang _ _ _ _ _ _ _ _ h'

/-! ### C9: the google language default -/

/-- C9: the `google_transcribe` collaborator is never invoked with an empty
language code: every `googleTranscribe` call in any handler run carries a
non-empty language argument; in a stop cycle whose cached settings resolve to
provider google with a configured key and an empty (after trimming) language
code, the call made is exactly `googleTranscribe` with language `"en-US"`;
and likewise in a stop cycle that resolves through the single settings
reload, when the reloaded settings give provider google with a configured key
and an empty (after trimming) language code. -/
theorem google_language_default :
    (∀ (now : Int) (env : Env) (s : AppState) (p k lang m : String) (b : Bool),
      Call.googleTranscribe p k lang m b ∈ (handleToggle now env s).2 → lang ≠ "") ∧
    (∀ (now : Int) (env : Env) (s : AppState) (stopped : Stopped),
      150 ≤ now - s.lastHandled → s.recording = true → env.stopResult = .ok stopped →
      s.provider = "google" → jsTrim s.googleApiKey ≠ "" → jsTrim s.googleLanguage = "" →
      Call.googleTranscribe stopped.path (jsTrim s.googleApiKey) "en-US" "default" true ∈
        (handleToggle now env s).2) ∧
    (∀ (now : Int) (env : Env) (s : AppState) (stopped : Stopped) (latest : Settings),
      150 ≤ now - s.lastHandled → s.recording = true → env.stopResult = .ok stopped →
      (s.provider = "" ∨ (s.provider = "openai" ∧ jsTrim s.openaiApiKey = "")
        ∨ (s.provider = "google" ∧ jsTrim s.googleApiKey = "")) →
      env.reloadResult = .ok latest →
      latest.provider = "google" → jsTrim latest.google_api_key ≠ "" →
      jsTrim latest.google_language = "" →
      Call.googleTranscribe stopped.path (jsTrim latest.google_api_key) "en-US" "default"
        true ∈ (handleToggle now env s).2) := by
  refine ⟨?_, ?_, ?_⟩
  · intro now env s p k lang m b h
    unfold handleToggle at h
    split at h
    · simp at h
    · split at h <;> simp at h
    · exact runStop_google_lang _ _ _ _ _ _ _ h
  · intro now env s stopped hacc hrec hstop hprov hgk hgl
    rw [handleToggle_stop_run now env s hacc hrec, runStop_ok env _ stopped hstop]
    apply List.mem_cons_of_mem
    have hb : (s.provider == "" || (s.provider == "openai" && jsTrim s.openaiApiKey == "") ||
        (s.provider == "google" && jsTrim s.googleApiKey == "")) = false := by
      simp [hprov, hgk]
    simp only [stopPipeline, hb]
    rw [if_neg (by simp)]
    have hgkb : (jsTrim s.googleApiKey == "") = false := by simp [hgk]
    simp [afterResolve, hprov, hgkb, hgl]
    cases htr : env.transcribeResult <;> simp [htr]
    repeat' split
    all_goals simp
  · intro now env s stopped latest hacc hrec hstop hmiss hreload hlp hlk hll
    rw [handleToggle_stop_run now env s hacc hrec, runStop_ok env _ stopped hstop]
    apply List.mem_cons_of_mem
    have hb : (s.provider == "" || (s.provider == "openai" && jsTrim s.openaiApiKey == "") ||
        (s.provider == "google" && jsTrim s.googleApiKey == "")) = true := by
      rcases hmiss with h | h | h
      · simp [h]
      · simp [h.1, h.2]
      · simp [h.1, h.2]
    simp only [stopPipeline]
    rw [if_pos hb, hreload]
    apply List.mem_cons_of_mem
    have hpb : (latest.provider == "google") = true := by simp [hlp]
    have hgkb : (jsTrim latest.google_api_key == "") = false := by simp [hlk]
    simp [afterResolve, hpb, hgkb, hll]
    cases htr : env.transcribeResult <;> simp [htr]
    repeat' split
    all_goals simp

/-- C9 witness: the substitution holds concretely on both resolution paths —
the cached google configuration with a whitespace-only language, and the
empty-credential cycle whose reload resolves provider google with a
whitespace-only language. -/
theorem google_language_default_witness :
    (Call.googleTranscribe "/tmp/rec.wav" (jsTrim googleState.googleApiKey) "en-US"
      "default" true ∈ (handleToggle 1000 okEnv googleState).2) ∧
    (Call.googleTranscribe "/tmp/rec.wav" (jsTrim "g-key2") "en-US"
      "default" true ∈ (handleToggle 1000 googleReloadEnv sNoKeyRecording).2) :=
  ⟨google_language_default.2.1 1000 okEnv googleState ⟨"/tmp/rec.wav", 16000, 5000⟩
    (by decide) rfl rfl rfl (by decide) (by decide),
   google_language_default.2.2 1000 googleReloadEnv sNoKeyRecording
    ⟨"/tmp/rec.wav", 16000, 5000⟩ ⟨"google", "", "g-key2", " "⟩
    (by decide) rfl rfl (by decide) rfl rfl (by decide) (by decide)⟩

lemma afterResolve_paste (env : Env) (stopped : Stopped)
    (p ok gk gl : String) (s : AppState) (t : String) (b : Bool)
    (hpaste : env.pasteResult = .ok b)
    (h : Call.paste t ∈ (afterResolve env stopped p ok gk gl s).2) :
    (afterResolve env stopped p ok gk gl s).1.phase = .DONE ∧
    (afterResolve env stopped p ok gk gl s).1.message =
      (if b then "Pasted: \"" ++ t ++ "\""
       else "Copied to clipboard (press ⌘V): \"" ++ t ++ "\"") := by
  unfold afterResolve at h ⊢
  repeat' split at h
  all_goals repeat' split
  all_goals simp_all

lemma stopPipeline_paste (env : Env) (stopped : Stopped) (s : AppState)
    (t : String) (b : Bool)
    (hpaste : env.pasteResult = .ok b)
    (h : Call.paste t ∈ (stopPipeline env stopped s).2) :
    (stopPipeline env stopped s).1.phase = .DONE ∧
    (stopPipeline env stopped s).1.message =
      (if b then "Pasted: \"" ++ t ++ "\""
       else "Copied to clipboard (press ⌘V): \"" ++ t ++ "\"") := by
  by_cases hc : (s.provider == "" || (s.provider == "openai" && jsTrim s.openaiApiKey == "") ||
      (s.provider == "google" && jsTrim s.googleApiKey == "")) = true
  · simp only [stopPipeline] at h ⊢
    rw [if_pos hc] at h ⊢
    cases hre : env.reloadResult
    · rw [hre] at h
      simp at h
    · rw [hre] at h
      rcases List.mem_cons.mp h with h' | h'
      · simp at h'
      · exact afterResolve_paste _ _ _ _ _ _ _ _ _ hpaste h'
  · simp only [stopPipeline] at h ⊢
    rw [if_neg hc] at h ⊢
    exact afterResolve_paste _ _ _ _ _ _ _ _ _ hpaste h

lemma runStop_paste (env : Env) (s : AppState) (t : String) (b : Bool)
    (hpaste : env.pasteResult = .ok b)
    (h : Call.paste t ∈ (runStop env s).2) :
    (runStop env s).1.phase = .DONE ∧
    (runStop env s).1.message =
      (if b then "Pasted: \"" ++ t ++ "\""
       else "Copied to clipboard (press ⌘V): \"" ++ t ++ "\"") := by
  cases hst : env.stopResult
  · unfold runStop at h
    rw [hst] at h
    simp at h
  · rw [runStop_ok env s _ hst] at h ⊢
    rcases List.mem_cons.mp h with h' | h'
    · simp at h'
    · exact stopPipeline_paste _ _ _ _ _ hpaste h'

/-! ### C6: paste failure is a degraded success -/

/-- C6: whenever the paste collaborator is invoked with transcript `t` and
returns a boolean result `b` (no exception), the cycle ends in phase DONE —
never ERROR — with message `Pasted: "<t>"` when `b` is true and the
clipboard-fallback message `Copied to clipboard (press ⌘V): "<t>"` when `b`
is false. -/
theorem paste_result_handling (now : Int) (env : Env) (s : AppState)
    (t : String) (b : Bool)
    (hpaste : env.pasteResult = .ok b)
    (hcalled : Call.paste t ∈ (handleToggle now env s).2) :
    (handleToggle now env s).1.phase = .DONE ∧
    (handleToggle now env s).1.phase ≠ .ERROR ∧
    (handleToggle now env s).1.message =
      (if b then "Pasted: \"" ++ t ++ "\""
       else "Copied to clipboard (press ⌘V): \"" ++ t ++ "\"") := by
  unfold handleToggle at hcalled ⊢
  rcases hts : toggleSyncStep now s with _ | ⟨s1, br⟩
  · rw [hts] at hcalled
    simp at hcalled
  · cases br
    · rw [hts] at hcalled
      cases hst : env.startResult <;> rw [hst] at hcalled <;> simp at hcalled
    · rw [hts] at hcalled
      have h := runStop_paste env s1 t b hpaste hcalled
      refine ⟨h.1, ?_, h.2⟩
      show (runStop env s1).1.phase ≠ Phase.ERROR
      rw [h.1]
      simp

/-- C6 witness: with the concrete paste-failure environment, the cycle ends
DONE (not ERROR) with the clipboard-fallback message. -/
theorem paste_result_handling_witness :
    (handleToggle 6000 pasteFalseEnv sRec).1.phase = Phase.DONE ∧
    (handleToggle 6000 pasteFalseEnv sRec).1.phase ≠ Phase.ERROR ∧
    (handleToggle 6000 pasteFalseEnv sRec).1.message =
      (if false then "Pasted: \"" ++ "hello world" ++ "\""
       else "Copied to clipboard (press ⌘V): \"" ++ "hello world" ++ "\"") :=
  paste_result_handling 6000 pasteFalseEnv sRec "hello world" false rfl (by decide)

lemma noText_ne_error (e : String) :
    "No text was transcribed from the audio" ≠ "Error: " ++ e := by
  intro h
  have h4 : ("No text was transcribed from the audio" : String).data.head? =
      ("Error: " ++ e).data.head? := congrArg (fun s : String => s.data.head?) h
  have h2 : (("Error: " ++ e).data.head?) = some 'E' := by
    rw [String.data_append]
    rfl
  rw [h2] at h4
  have h3 : ("No text was transcribed from the audio" : String).data.head? = some 'N' := by
    decide
  rw [h3] at h4
  exact absurd h4 (by decide)

lemma afterResolve_empty (env : Env) (stopped : Stopped)
    (p ok gk gl : String) (s : AppState) (text : String)
    (htr : env.transcribeResult = .ok text)
    (hempty : (jsTrim text).length = 0)
    (h : ∃ c ∈ (afterResolve env stopped p ok gk gl s).2, isTranscribeCall c = true) :
    (afterResolve env stopped p ok gk gl s).1.phase = .ERROR ∧
    (afterResolve env stopped p ok gk gl s).1.message =
      "No text was transcribed from the audio" ∧
    ∀ t', Call.paste t' ∉ (afterResolve env stopped p ok gk gl s).2 := by
  obtain ⟨c, hc, htc⟩ := h
  unfold afterResolve at hc ⊢
  repeat' split at hc
  all_goals repeat' split
  all_goals simp_all

lemma stopPipeline_empty (env : Env) (stopped : Stopped) (s : AppState) (text : String)
    (htr : env.transcribeResult = .ok text)
    (hempty : (jsTrim text).length = 0)
    (h : ∃ c ∈ (stopPipeline env stopped s).2, isTranscribeCall c = true) :
    (stopPipeline env stopped s).1.phase = .ERROR ∧
    (stopPipeline env stopped s).1.message = "No text was transcribed from the audio" ∧
    ∀ t', Call.paste t' ∉ (stopPipeline env stopped s).2 := by
  obtain ⟨c, hc, htc⟩ := h
  by_cases hcnd : (s.provider == "" || (s.provider == "openai" && jsTrim s.openaiApiKey == "")
      || (s.provider == "google" && jsTrim s.googleApiKey == "")) = true
  · simp only [stopPipeline] at hc ⊢
    rw [if_pos hcnd] at hc ⊢
    cases hre : env.reloadResult
    · rw [hre] at hc
      simp at hc
      rw [hc] at htc
      simp [isTranscribeCall] at htc
    · rw [hre] at hc
      rcases List.mem_cons.mp hc with h' | h'
      · rw [h'] at htc
        simp [isTranscribeCall] at htc
      · have hr := afterResolve_empty env stopped _ _ _ _ _ text htr hempty ⟨c, h', htc⟩
        refine ⟨hr.1, hr.2.1, ?_⟩
        intro t' hmem
        rcases List.mem_cons.mp hmem with h'' | h''
        · simp at h''
        · exact hr.2.2 t' h''
  · simp only [stopPipeline] at hc ⊢
    rw [if_neg hcnd] at hc ⊢
    exact afterResolve_empty env stopped _ _ _ _ _ text htr hempty ⟨c, hc, htc⟩

lemma runStop_empty (env : Env) (s : AppState) (text : String)
    (htr : env.transcribeResult = .ok text)
    (hempty : (jsTrim text).length = 0)
    (h : ∃ c ∈ (runStop env s).2, isTranscribeCall c = true) :
    (runStop env s).1.phase = .ERROR ∧
    (runStop env s).1.message = "No text was transcribed from the audio" ∧
    ∀ t', Call.paste t' ∉ (runStop env s).2 := by
  obtain ⟨c, hc, htc⟩ := h
  cases hst : env.stopResult
  · unfold runStop at hc
    rw [hst] at hc
    simp at hc
    rw [hc] at htc
    simp [isTranscribeCall] at htc
  · rw [runStop_ok env s _ hst] at hc ⊢
    rcases List.mem_cons.mp hc with h' | h'
    · rw [h'] at htc
      simp [isTranscribeCall] at htc
    · have hr := stopPipeline_empty env _ s text htr hempty ⟨c, h', htc⟩
      refine ⟨hr.1, hr.2.1, ?_⟩
      intro t' hmem
      rcases List.mem_cons.mp hmem with h'' | h''
      · simp at h''
      · exact hr.2.2 t' h''

/-! ### C5: the empty-transcript outcome -/

/-- C5 counterexample: a successful transcription returning whitespace-only
text yields phase ERROR with the message "No text was transcribed from the
audio" — NOT the literal message "no text transcribed" stated by the claim —
and the paste collaborator is never invoked (the run's calls are exactly
stop_recording followed by the transcription call). -/
theorem empty_transcript_message_cex :
    (handleToggle 6000 emptyTextEnv sRec).1.phase = Phase.ERROR ∧
    (handleToggle 6000 emptyTextEnv sRec).1.message =
      "No text was transcribed from the audio" ∧
    (handleToggle 6000 emptyTextEnv sRec).1.message ≠ "no text transcribed" ∧
    (handleToggle 6000 emptyTextEnv sRec).2 =
      [Call.stop, Call.openaiTranscribe "/tmp/rec.wav" "sk-test" "whisper-1"] := by decide

/-- C5 amended: whenever a transcription call is made and returns successfully
with a transcript whose trim is empty, the run ends in phase ERROR with the
message "No text was transcribed from the audio", the paste collaborator is
never invoked in that run, and this message is distinct from every provider
transport-failure message (which always has the form `Error: <message>`). -/
theorem empty_transcript_handling (now : Int) (env : Env) (s : AppState) (text : String)
    (htr : env.transcribeResult = .ok text)
    (hempty : (jsTrim text).length = 0)
    (hcalled : ∃ c ∈ (handleToggle now env s).2, isTranscribeCall c = true) :
    (handleToggle now env s).1.phase = .ERROR ∧
    (handleToggle now env s).1.message = "No text was transcribed from the audio" ∧
    (∀ t', Call.paste t' ∉ (handleToggle now env s).2) ∧
    (∀ e : String, "No text was transcribed from the audio" ≠ "Error: " ++ e) := by
  obtain ⟨c, hc, htc⟩ := hcalled
  unfold handleToggle at hc ⊢
  rcases hts : toggleSyncStep now s with _ | ⟨s1, br⟩
  · rw [hts] at hc
    simp at hc
  · cases br
    · rw [hts] at hc
      cases hst : env.startResult <;> rw [hst] at hc <;> simp at hc <;>
        rw [hc] at htc <;> simp [isTranscribeCall] at htc
    · rw [hts] at hc
      have hr := runStop_empty env s1 text htr hempty ⟨c, hc, htc⟩
      exact ⟨hr.1, hr.2.1, hr.2.2, noText_ne_error⟩

/-- C5 witness: the amended theorem applied to the concrete whitespace-only
transcription run. -/
theorem empty_transcript_handling_witness :
    (handleToggle 6000 emptyTextEnv sRec).1.phase = Phase.ERROR ∧
    (handleToggle 6000 emptyTextEnv sRec).1.message =
      "No text was transcribed from the audio" := by
  have h := empty_transcript_handling 6000 emptyTextEnv sRec "   " rfl (by decide)
    ⟨Call.openaiTranscribe "/tmp/rec.wav" "sk-test" "whisper-1", by decide, by decide⟩
  exact ⟨h.1, h.2.1⟩

end HotkeyType
